import Mathlib

/-!
Verification of the kube-agentic-networking control plane core.

This file gives a shallow embedding of the RBAC policy compiler
(`pkg/translator/authPolicy.go`), the connectivity compiler
(`convertBackendToCluster`) and the xDS distribution server
(`Server.UpdateXDSServer`), together with theorems about them.

Envoy matcher structures are embedded only in the fragment the compiler
actually constructs (exact string matchers, OR/AND sets, header matchers,
sourced-metadata matchers), with their standard evaluation semantics over
an abstract request carrying headers and filter metadata.
-/

namespace AgenticNet

/-! ## Generic association maps (Go `map[string]T` and assoc lookups) -/

/-- Lookup in an association list by key (first match wins). -/
def assocGet {κ α : Type} [DecidableEq κ] : List (κ × α) → κ → Option α
  | [], _ => none
  | (k', v) :: rest, k => if k' = k then some v else assocGet rest k

/-- Go map assignment `m[k] = v`: replace the binding of `k` if present,
otherwise append it. -/
def mapSet {κ α : Type} [DecidableEq κ] : List (κ × α) → κ → α → List (κ × α)
  | [], k, v => [(k, v)]
  | (k', v') :: rest, k, v =>
    if k' = k then (k, v) :: rest else (k', v') :: mapSet rest k v

/-! ## Constants from `pkg/translator/authPolicy.go` -/

def allowMCPSessionClosePolicyName : String := "allow-mcp-session-close"

def allowAnyoneToInitializeAndListToolsPolicyName : String :=
  "allow-anyone-to-initialize-and-list-tools"

def initializeMethod : String := "initialize"

def initializedMethod : String := "notifications/initialized"

def toolsListMethod : String := "tools/list"

def mcpSessionIDHeader : String := "mcp-session-id"

def toolsCallMethod : String := "tools/call"

def mcpProxyFilterName : String := "mcp_proxy"

/-! ## Envoy matcher model (the fragment built by the compiler) -/

/-- `matcherv3.StringMatcher`, restricted to the `Exact` pattern, the only
pattern this code base constructs. -/
inductive StringMatcher : Type where
  | exact (value : String)
deriving DecidableEq, Repr

/-- `matcherv3.ValueMatcher`: either a string match or an OR over nested
value matchers (`matcherv3.OrMatcher`). -/
inductive ValueMatcher : Type where
  | stringMatch (sm : StringMatcher)
  | orMatch (valueMatchers : List ValueMatcher)

/-- `routev3.HeaderMatcher.HeaderMatchSpecifier`: exact string match or
presence match. -/
inductive HeaderMatchSpecifier : Type where
  | stringMatch (sm : StringMatcher)
  | presentMatch (b : Bool)
deriving DecidableEq, Repr

/-- `routev3.HeaderMatcher`. -/
structure HeaderMatcher : Type where
  name : String
  specifier : HeaderMatchSpecifier
deriving DecidableEq, Repr

/-- `matcherv3.MetadataMatcher`: a filter name, a path of segment keys, and
a value matcher. -/
structure MetadataMatcher : Type where
  filter : String
  path : List String
  value : ValueMatcher

/-- `rbacconfigv3.Principal`, restricted to the identifiers this code base
constructs. -/
inductive Principal : Type where
  | header (h : HeaderMatcher)
  | orIds (ids : List Principal)
  | andIds (ids : List Principal)
  | anyPrincipal (b : Bool)

/-- `rbacconfigv3.Permission`, restricted to the rules this code base
constructs. -/
inductive Permission : Type where
  | andRules (rules : List Permission)
  | orRules (rules : List Permission)
  | sourcedMetadata (mm : MetadataMatcher)
  | header (h : HeaderMatcher)
  | anyPermission (b : Bool)

/-- `rbacconfigv3.Policy`: a set of principals and a set of permissions. -/
structure Policy : Type where
  principals : List Principal
  permissions : List Permission

/-- `rbacconfigv3.RBAC_Action`. -/
inductive RBACAction : Type where
  | allow
  | deny
deriving DecidableEq, Repr

/-- The policy map `map[string]*rbacconfigv3.Policy`, as an association
list with Go-map assignment semantics (`mapSet`). -/
abbrev RBACPolicyMap : Type := List (String × Policy)

/-- `rbacv3.RBAC.Rules` (`rbacconfigv3.RBAC`): the resolved action plus the
named policies. -/
structure RBACRules : Type where
  action : RBACAction
  policies : RBACPolicyMap

/-! ## Request model and matcher evaluation semantics

A request carries HTTP headers (including the `:method` pseudo-header) and
the structured metadata published by the request-introspection filter,
keyed by filter name and path. -/

structure Request : Type where
  headers : List (String × String)
  metadata : List ((String × List String) × String)
deriving DecidableEq, Repr

def stringMatcherMatches : StringMatcher → String → Bool
  | .exact v, s => v == s

mutual

def valueMatcherMatches : ValueMatcher → String → Bool
  | .stringMatch sm, s => stringMatcherMatches sm s
  | .orMatch vms, s => valueMatchersAny vms s

def valueMatchersAny : List ValueMatcher → String → Bool
  | [], _ => false
  | vm :: vms, s => valueMatcherMatches vm s || valueMatchersAny vms s

end

def headerMatcherMatches (hm : HeaderMatcher) (req : Request) : Bool :=
  match assocGet req.headers hm.name, hm.specifier with
  | some v, .stringMatch sm => stringMatcherMatches sm v
  | none, .stringMatch _ => false
  | o, .presentMatch b => o.isSome == b

def metadataMatcherMatches (mm : MetadataMatcher) (req : Request) : Bool :=
  match assocGet req.metadata (mm.filter, mm.path) with
  | some v => valueMatcherMatches mm.value v
  | none => false

mutual

def principalMatches : Principal → Request → Bool
  | .header h, req => headerMatcherMatches h req
  | .orIds ids, req => principalsAny ids req
  | .andIds ids, req => principalsAll ids req
  | .anyPrincipal b, _ => b

def principalsAny : List Principal → Request → Bool
  | [], _ => false
  | p :: ps, req => principalMatches p req || principalsAny ps req

def principalsAll : List Principal → Request → Bool
  | [], _ => true
  | p :: ps, req => principalMatches p req && principalsAll ps req

end

mutual

def permissionMatches : Permission → Request → Bool
  | .andRules rs, req => permissionsAll rs req
  | .orRules rs, req => permissionsAny rs req
  | .sourcedMetadata mm, req => metadataMatcherMatches mm req
  | .header h, req => headerMatcherMatches h req
  | .anyPermission b, _ => b

def permissionsAny : List Permission → Request → Bool
  | [], _ => false
  | p :: ps, req => permissionMatches p req || permissionsAny ps req

def permissionsAll : List Permission → Request → Bool
  | [], _ => true
  | p :: ps, req => permissionMatches p req && permissionsAll ps req

end

/-- Envoy RBAC policy evaluation: a policy matches a request when some
permission matches and some principal matches. -/
def policyMatches (p : Policy) (req : Request) : Bool :=
  permissionsAny p.permissions req && principalsAny p.principals req

/-! ## API types (`api/agentic/v1alpha1`) -/

/-- `Source`: identities and service-account references (each list is an OR
list; fields are OR'd together). -/
structure Source : Type where
  identities : List String
  serviceAccounts : List String
deriving DecidableEq, Repr

/-- `AuthRule`: a required `Source` and an optional tool list. -/
structure AuthRule : Type where
  source : Source
  tools : List String
deriving DecidableEq, Repr

/-- `gwapiv1.LocalPolicyTargetReference`, restricted to the fields the
compiler reads. -/
structure LocalPolicyTargetReference : Type where
  kind : String
  name : String
deriving DecidableEq, Repr

/-- `ActionAllow`, the only declared `AuthPolicyAction` value. -/
def ActionAllow : String := "ALLOW"

/-- `AuthPolicySpec`: target reference, ordered rules, and action (a string
type; any value other than `ActionAllow` is unrecognized). -/
structure AuthPolicySpec : Type where
  targetRef : LocalPolicyTargetReference
  rules : List AuthRule
  action : String
deriving DecidableEq, Repr

/-- `AuthPolicy` with the object metadata the compiler reads. -/
structure AuthPolicy : Type where
  nspace : String
  name : String
  spec : AuthPolicySpec
deriving DecidableEq, Repr

/-- `BackendSpec.MCP`: either an in-cluster service (`serviceName` set) or
an external endpoint (`hostname` set), plus a port. -/
structure MCPBackend : Type where
  serviceName : String
  hostname : String
  port : Nat
deriving DecidableEq, Repr

/-- `Backend` with the object metadata the compilers read. -/
structure Backend : Type where
  nspace : String
  name : String
  mcp : MCPBackend
deriving DecidableEq, Repr

/-! ## Decimal formatting (Go `fmt.Sprintf` `%d` verb)

`%d` prints the decimal digits of the number.  We embed it through
`Nat.digits`, which lets us inherit injectivity from `Nat.ofDigits_digits`. -/

/-- The character for a single decimal digit. -/
def decimalDigitChar (d : Nat) : Char := Char.ofNat (48 + d)

/-- Go `fmt.Sprintf` with the `%d` verb at a natural number: the decimal
representation, most significant digit first. -/
def sprintfNat (n : Nat) : String :=
  if n = 0 then "0"
  else ((Nat.digits 10 n).reverse.map decimalDigitChar).asString

/-- `RBACPolicyNameFormat = "%s-%s-rule-%d"` applied to the backend's
namespace, the backend's name and the rule index. -/
def rbacPolicyName (ns nm : String) (i : Nat) : String :=
  ns ++ "-" ++ nm ++ "-rule-" ++ sprintfNat i

/-- `ClusterNameFormat = "%s-%s"` applied to namespace and name. -/
def clusterNameOf (ns nm : String) : String :=
  ns ++ "-" ++ nm

/-! ## RBAC policy compiler (`pkg/translator/authPolicy.go`) -/

/-- The principal list built for one rule: the concatenation
`append(rule.Source.Identities, rule.Source.ServiceAccounts...)` becomes,
when non-empty, a single OR'd set of exact `x-user-role` header matches. -/
def compileRulePrincipals (rule : AuthRule) : List Principal :=
  let allSources := rule.source.identities ++ rule.source.serviceAccounts
  if allSources.length > 0 then
    [Principal.orIds (allSources.map (fun source =>
      Principal.header
        { name := "x-user-role",
          specifier := .stringMatch (.exact source) }))]
  else []

/-- The value matcher over the allowed tool names: a single exact match for
one tool, an OR of exact matches otherwise. -/
def toolsValueMatcher (tools : List String) : ValueMatcher :=
  let toolValueMatchers := tools.map (fun tool =>
    ValueMatcher.stringMatch (.exact tool))
  match toolValueMatchers with
  | [m] => m
  | ms => ValueMatcher.orMatch ms

/-- The permission list built for one rule: when `Tools` is non-empty, one
AND of (method metadata == `tools/call`) and (params.name metadata matches
the tool matcher); otherwise no permission at all. -/
def compileRulePermissions (rule : AuthRule) : List Permission :=
  if rule.tools.length > 0 then
    [Permission.andRules
      [Permission.sourcedMetadata
        { filter := mcpProxyFilterName,
          path := ["method"],
          value := .stringMatch (.exact toolsCallMethod) },
       Permission.sourcedMetadata
        { filter := mcpProxyFilterName,
          path := ["params", "name"],
          value := toolsValueMatcher rule.tools }]]
  else []

/-- The policy compiled for one rule. -/
def compileRule (rule : AuthRule) : Policy :=
  { principals := compileRulePrincipals rule,
    permissions := compileRulePermissions rule }

/-- The indexed loop body of `translateAuthPolicyToRBAC`: process the
remaining rules starting at index `i`, assigning into the policy map. -/
def translateRules (ns nm : String) : Nat → List AuthRule → RBACPolicyMap → RBACPolicyMap
  | _, [], policies => policies
  | i, rule :: rest, policies =>
    translateRules ns nm (i + 1) rest
      (mapSet policies (rbacPolicyName ns nm i) (compileRule rule))

/-- `translateAuthPolicyToRBAC`. -/
def translateAuthPolicyToRBAC (authPolicy : AuthPolicy) (backend : Backend) : RBACPolicyMap :=
  translateRules backend.nspace backend.name 0 authPolicy.spec.rules []

/-- `buildAllowMCPSessionClosePolicy`: principal = AND of (`:method` header
exactly `DELETE`) and (`mcp-session-id` header present); permission = any. -/
def buildAllowMCPSessionClosePolicy : Policy :=
  { principals :=
      [Principal.andIds
        [Principal.header
          { name := ":method", specifier := .stringMatch (.exact "DELETE") },
         Principal.header
          { name := mcpSessionIDHeader, specifier := .presentMatch true }]],
    permissions := [Permission.anyPermission true] }

/-- `buildAllowAnyoneToInitializeAndListToolsPolicy`: principal = any;
permission = OR of (method metadata in the three handshake/introspection
methods) and (`:method` header exactly `GET`). -/
def buildAllowAnyoneToInitializeAndListToolsPolicy : Policy :=
  { principals := [Principal.anyPrincipal true],
    permissions :=
      [Permission.orRules
        [Permission.sourcedMetadata
          { filter := mcpProxyFilterName,
            path := ["method"],
            value := .orMatch
              [.stringMatch (.exact initializeMethod),
               .stringMatch (.exact initializedMethod),
               .stringMatch (.exact toolsListMethod)] },
         Permission.header
          { name := ":method", specifier := .stringMatch (.exact "GET") }]] }

/-- `rbacActionFromAuthPolicy`: `ALLOW` when no policy exists; a declared
`ActionAllow` maps to `ALLOW`; any other declared action falls through to
the default `ALLOW`. -/
def rbacActionFromAuthPolicy (authPolicy : Option AuthPolicy) : RBACAction :=
  let defaultAction := RBACAction.allow
  match authPolicy with
  | none => defaultAction
  | some ap =>
    if ap.spec.action = ActionAllow then RBACAction.allow
    else defaultAction

/-- `findAuthPolicyForBackend`: list the AuthPolicies in the backend's
namespace and return the first one whose target reference has kind
`Backend` and the backend's name. -/
def findAuthPolicyForBackend (backend : Backend) (allAuthPolicies : List AuthPolicy) : Option AuthPolicy :=
  (allAuthPolicies.filter (fun ap => ap.nspace == backend.nspace)).find?
    (fun ap =>
      ap.spec.targetRef.kind == "Backend" && ap.spec.targetRef.name == backend.name)

/-- `rbacConfigFromAuthPolicy`: translate the targeting AuthPolicy (if
any), resolve the action, and when the action is `ALLOW` add the two
baked-in policies under their fixed names. -/
def rbacConfigFromAuthPolicy (allAuthPolicies : List AuthPolicy) (backend : Backend) : RBACRules :=
  let authPolicy := findAuthPolicyForBackend backend allAuthPolicies
  let rbacPolicies : RBACPolicyMap :=
    match authPolicy with
    | some ap => translateAuthPolicyToRBAC ap backend
    | none => []
  let action := rbacActionFromAuthPolicy authPolicy
  let rbacPolicies :=
    if action = RBACAction.allow then
      mapSet
        (mapSet rbacPolicies allowMCPSessionClosePolicyName
          buildAllowMCPSessionClosePolicy)
        allowAnyoneToInitializeAndListToolsPolicyName
        buildAllowAnyoneToInitializeAndListToolsPolicy
    else rbacPolicies
  { action := action, policies := rbacPolicies }

/-! ## Connectivity compiler (`convertBackendToCluster`) -/

/-- `defaultConnectTimeout = 5 * time.Second`, in seconds. -/
def defaultConnectTimeoutSeconds : Nat := 5

/-- `clusterv3.Cluster_DiscoveryType`, restricted to the two modes this
code base selects. -/
inductive ClusterDiscoveryType : Type where
  | strictDNS
  | logicalDNS
deriving DecidableEq, Repr

/-- `corev3.TransportSocket` carrying a `tlsv3.UpstreamTlsContext` typed
config, of which only the SNI field is populated. -/
structure TransportSocket : Type where
  name : String
  sni : String
deriving DecidableEq, Repr

/-- Modelled from the spec: `createClusterLoadAssignment` is not under
`src/`; per the spec the load-balancing endpoint is the given address plus
the configured port, grouped under the cluster's name. -/
structure ClusterLoadAssignment : Type where
  clusterName : String
  address : String
  port : Nat
deriving DecidableEq, Repr

/-- Modelled from the spec: builds the endpoint `address:port` for the
named cluster. -/
def createClusterLoadAssignment (clusterName address : String) (port : Nat) :
    ClusterLoadAssignment :=
  { clusterName := clusterName, address := address, port := port }

/-- `clusterv3.Cluster`, restricted to the fields this code base sets. -/
structure Cluster : Type where
  name : String
  connectTimeoutSeconds : Nat
  clusterDiscoveryType : ClusterDiscoveryType
  loadAssignment : ClusterLoadAssignment
  transportSocket : Option TransportSocket
deriving DecidableEq, Repr

/-- `convertBackendToCluster`.  The Go error path exists only for protobuf
marshalling of the TLS context (`anypb.New`); the embedding keeps the
`Except` result type of the source signature. -/
def convertBackendToCluster (backend : Backend) : Except String Cluster :=
  let clusterName := clusterNameOf backend.nspace backend.name
  if backend.mcp.serviceName ≠ "" then
    let serviceFQDN :=
      backend.mcp.serviceName ++ "." ++ backend.nspace ++ ".svc.cluster.local"
    .ok { name := clusterName,
          connectTimeoutSeconds := defaultConnectTimeoutSeconds,
          clusterDiscoveryType := .strictDNS,
          loadAssignment :=
            createClusterLoadAssignment clusterName serviceFQDN backend.mcp.port,
          transportSocket := none }
  else
    .ok { name := clusterName,
          connectTimeoutSeconds := defaultConnectTimeoutSeconds,
          clusterDiscoveryType := .logicalDNS,
          loadAssignment :=
            createClusterLoadAssignment clusterName backend.mcp.hostname
              backend.mcp.port,
          transportSocket :=
            some { name := "envoy.transport_sockets.tls",
                   sni := backend.mcp.hostname } }

/-! ## xDS distribution server (`Server.UpdateXDSServer`) -/

/-- `map[resourcev3.Type][]envoyproxytypes.Resource`: resources per
resource-type URL, with resources abstracted to names. -/
abbrev Resources : Type := List (String × List String)

/-- A committed snapshot: the version token plus the resource set. -/
structure Snapshot : Type where
  version : String
  resources : Resources
deriving DecidableEq, Repr

/-- The modulus of Go's `uint64`: `atomic.Uint64.Add` wraps modulo
`2^64`. -/
def uint64Mod : Nat := 2 ^ 64

/-- The `Server` state the update path touches: the process-wide atomic
version counter (an `atomic.Uint64`, so its value lives modulo `2^64`)
and the per-node snapshot cache. -/
structure XDSServer : Type where
  version : Nat
  cache : List (String × Snapshot)
deriving DecidableEq, Repr

/-- `Server.UpdateXDSServer`, parameterized by the failure behavior of the
two external library calls: `mkErr resources = some e` models
`cachev3.NewSnapshot` rejecting a malformed resource set, and
`setErr cache nodeid snapshot = some e` models `cache.SetSnapshot`
failing.  The counter is incremented first — `version.Add(1)` on a
`uint64` wraps modulo `2^64` — then `NewSnapshot` stamps the stringified
counter into the snapshot and `SetSnapshot` commits it under the node
id. -/
def UpdateXDSServer (mkErr : Resources → Option String)
    (setErr : List (String × Snapshot) → String → Snapshot → Option String)
    (s : XDSServer) (nodeid : String) (resources : Resources) :
    Except String Unit × XDSServer :=
  let version := (s.version + 1) % uint64Mod
  let s' : XDSServer := { s with version := version }
  match mkErr resources with
  | some e => (.error ("failed to create new snapshot cache: " ++ e), s')
  | none =>
    let snapshot : Snapshot :=
      { version := sprintfNat version, resources := resources }
    match setErr s'.cache nodeid snapshot with
    | some e =>
      (.error ("failed to update resource snapshot in management server: " ++ e), s')
    | none => (.ok (), { s' with cache := mapSet s'.cache nodeid snapshot })

/-! ## Lemmas: decimal formatting is injective -/

theorem decimalDigitChar_injOn :
    ∀ d < 10, ∀ e < 10, decimalDigitChar d = decimalDigitChar e → d = e := by
  decide

theorem toNat_decimalDigitChar (d : Nat) (hd : d < 10) :
    (decimalDigitChar d).toNat - 48 = d := by
  interval_cases d <;> decide

theorem map_decimalDigitChar_cancel (l : List Nat) (hl : ∀ d ∈ l, d < 10) :
    (l.map decimalDigitChar).map (fun c => c.toNat - 48) = l := by
  rw [List.map_map]
  exact List.map_congr_left (fun d hd => toNat_decimalDigitChar d (hl d hd)) |>.trans l.map_id

theorem sprintfNat_ne_zero_str (n : Nat) (hn : n ≠ 0) : sprintfNat n ≠ "0" := by
  intro h
  unfold sprintfNat at h
  rw [if_neg hn] at h
  have hdata : ((Nat.digits 10 n).reverse.map decimalDigitChar) = ['0'] := by
    have := congrArg String.data h
    simpa [List.asString] using this
  have hdig : Nat.digits 10 n = [0] := by
    have h2 := congrArg (List.map (fun c => c.toNat - 48)) hdata
    rw [map_decimalDigitChar_cancel _ (by
      intro d hd
      exact Nat.digits_lt_base (by norm_num) (List.mem_reverse.mp hd))] at h2
    have : (Nat.digits 10 n).reverse = [0] := by simpa using h2
    simpa using congrArg List.reverse this
  have := Nat.ofDigits_digits 10 n
  rw [hdig] at this
  simp [Nat.ofDigits] at this
  exact hn this.symm

theorem sprintfNat_injective : Function.Injective sprintfNat := by
  intro m n h
  by_cases hm : m = 0 <;> by_cases hn : n = 0
  · rw [hm, hn]
  · exact absurd h.symm (by simpa [hm, sprintfNat] using sprintfNat_ne_zero_str n hn)
  · exact absurd h (by simpa [hn, sprintfNat] using sprintfNat_ne_zero_str m hm)
  · unfold sprintfNat at h
    rw [if_neg hm, if_neg hn] at h
    have hdata := List.asString_inj.mp h
    have h2 := congrArg (List.map (fun c => c.toNat - 48)) hdata
    rw [map_decimalDigitChar_cancel _ (by
        intro d hd
        exact Nat.digits_lt_base (by norm_num) (List.mem_reverse.mp hd)),
      map_decimalDigitChar_cancel _ (by
        intro d hd
        exact Nat.digits_lt_base (by norm_num) (List.mem_reverse.mp hd))] at h2
    have hdig := List.reverse_injective h2
    calc m = Nat.ofDigits 10 (Nat.digits 10 m) := (Nat.ofDigits_digits 10 m).symm
      _ = Nat.ofDigits 10 (Nat.digits 10 n) := by rw [hdig]
      _ = n := Nat.ofDigits_digits 10 n

theorem string_append_left_cancel {s t1 t2 : String} (h : s ++ t1 = s ++ t2) :
    t1 = t2 := by
  have hd := congrArg String.data h
  simp only [String.data_append] at hd
  exact String.ext (List.append_cancel_left hd)

theorem rbacPolicyName_inj (ns nm : String) {i j : Nat}
    (h : rbacPolicyName ns nm i = rbacPolicyName ns nm j) : i = j := by
  unfold rbacPolicyName at h
  repeat rw [String.append_assoc] at h
  have h1 := string_append_left_cancel h
  have h2 := string_append_left_cancel h1
  have h3 := string_append_left_cancel h2
  have h4 := string_append_left_cancel h3
  exact sprintfNat_injective h4

/-! ## Lemmas: association maps -/

theorem assocGet_mapSet_self {κ α : Type} [DecidableEq κ]
    (m : List (κ × α)) (k : κ) (v : α) :
    assocGet (mapSet m k v) k = some v := by
  induction m with
  | nil => simp [mapSet, assocGet]
  | cons hd tl ih =>
    obtain ⟨k', v'⟩ := hd
    by_cases hk : k' = k
    · simp [mapSet, hk, assocGet]
    · simp [mapSet, hk, assocGet, ih]

theorem assocGet_mapSet_ne {κ α : Type} [DecidableEq κ]
    (m : List (κ × α)) (k k' : κ) (v : α) (hne : k ≠ k') :
    assocGet (mapSet m k v) k' = assocGet m k' := by
  induction m with
  | nil => simp [mapSet, assocGet, hne]
  | cons hd tl ih =>
    obtain ⟨k0, v0⟩ := hd
    by_cases hk : k0 = k
    · simp [mapSet, hk, assocGet, hne]
    · simp [mapSet, hk, assocGet, ih]

/-! ## Lemmas: the per-rule translation loop -/

theorem assocGet_translateRules_frozen (ns nm : String) (rules : List AuthRule)
    (i : Nat) (k : String) (m : RBACPolicyMap)
    (hk : ∀ j, i ≤ j → rbacPolicyName ns nm j ≠ k) :
    assocGet (translateRules ns nm i rules m) k = assocGet m k := by
  induction rules generalizing i m with
  | nil => rfl
  | cons rule rest ih =>
    rw [translateRules, ih (i + 1) _ (fun j hj => hk j (Nat.le_of_succ_le hj))]
    exact assocGet_mapSet_ne _ _ _ _ (hk i le_rfl)

theorem assocGet_translateRules (ns nm : String) (rules : List AuthRule)
    (i j : Nat) (rule : AuthRule) (m : RBACPolicyMap)
    (h : rules[j]? = some rule) :
    assocGet (translateRules ns nm i rules m) (rbacPolicyName ns nm (i + j)) =
      some (compileRule rule) := by
  induction rules generalizing i j m with
  | nil => simp at h
  | cons hd rest ih =>
    cases j with
    | zero =>
      simp only [List.getElem?_cons_zero, Option.some.injEq] at h
      subst h
      rw [translateRules,
        assocGet_translateRules_frozen ns nm rest (i + 1) _ _ (by
          intro j hj hne
          have := rbacPolicyName_inj ns nm hne
          omega)]
      exact assocGet_mapSet_self _ _ _
    | succ j' =>
      simp only [List.getElem?_cons_succ] at h
      have := ih (i + 1) j' (mapSet m (rbacPolicyName ns nm i) (compileRule hd)) h
      rw [translateRules]
      have harith : i + 1 + j' = i + (j' + 1) := by omega
      rw [harith] at this
      exact this

/-- Lookup of the policy compiled for rule `i` in the full translation. -/
theorem assocGet_translateAuthPolicyToRBAC (ap : AuthPolicy) (backend : Backend)
    (i : Nat) (rule : AuthRule) (h : ap.spec.rules[i]? = some rule) :
    assocGet (translateAuthPolicyToRBAC ap backend)
      (rbacPolicyName backend.nspace backend.name i) = some (compileRule rule) := by
  have := assocGet_translateRules backend.nspace backend.name ap.spec.rules 0 i rule [] h
  simpa [translateAuthPolicyToRBAC] using this

/-! ## Lemmas: evaluation of the compiled matchers -/

theorem valueMatchersAny_exact_list (tools : List String) (v : String) :
    valueMatchersAny
      (tools.map (fun tool => ValueMatcher.stringMatch (.exact tool))) v =
      tools.any (fun t => t == v) := by
  induction tools with
  | nil => rfl
  | cons t ts ih =>
    simp only [List.map_cons, valueMatchersAny, valueMatcherMatches,
      stringMatcherMatches, List.any_cons, ih]

theorem toolsValueMatcher_matches (tools : List String) (htools : tools ≠ [])
    (v : String) :
    valueMatcherMatches (toolsValueMatcher tools) v =
      tools.any (fun t => t == v) := by
  match tools with
  | [] => exact absurd rfl htools
  | [t] =>
    show valueMatcherMatches (ValueMatcher.stringMatch (.exact t)) v = _
    simp [valueMatcherMatches, stringMatcherMatches]
  | t1 :: t2 :: ts =>
    simp only [toolsValueMatcher, List.map_cons, valueMatcherMatches]
    exact valueMatchersAny_exact_list (t1 :: t2 :: ts) v

theorem string_beq_comm (a b : String) : (a == b) = (b == a) := by
  rw [Bool.eq_iff_iff]
  simp only [beq_iff_eq]
  exact eq_comm

theorem principalsAny_header_exact (srcs : List String) (req : Request) :
    principalsAny
      (srcs.map (fun source =>
        Principal.header
          { name := "x-user-role",
            specifier := .stringMatch (.exact source) })) req =
      srcs.any (fun s => assocGet req.headers "x-user-role" == some s) := by
  induction srcs with
  | nil => rfl
  | cons s ss ih =>
    simp only [List.map_cons, principalsAny, principalMatches, List.any_cons, ih]
    cases h : assocGet req.headers "x-user-role" with
    | none => simp [headerMatcherMatches, h]
    | some v =>
      simp [headerMatcherMatches, h, stringMatcherMatches, string_beq_comm]

/-- Principal semantics of one compiled rule: the request matches exactly
when its `x-user-role` value is one of the concatenated sources. -/
theorem principalsAny_compileRule (rule : AuthRule) (req : Request) :
    (principalsAny (compileRule rule).principals req = true ↔
      ∃ s ∈ rule.source.identities ++ rule.source.serviceAccounts,
        assocGet req.headers "x-user-role" = some s) := by
  show (principalsAny (compileRulePrincipals rule) req = true ↔ _)
  unfold compileRulePrincipals
  by_cases h : (rule.source.identities ++ rule.source.serviceAccounts).length > 0
  · rw [if_pos h]
    simp only [principalsAny, principalMatches, Bool.or_false,
      principalsAny_header_exact, List.any_eq_true, beq_iff_eq]
  · have hl : rule.source.identities ++ rule.source.serviceAccounts = [] := by
      simpa using Nat.eq_zero_of_not_pos h
    rw [if_neg h]
    simp [principalsAny, hl]

/-- Permission semantics of one compiled rule with a non-empty tool list:
the request matches exactly when its `method` metadata is the
tool-invocation method and its `params.name` metadata names one of the
allowed tools. -/
theorem permissionsAny_compileRule (rule : AuthRule) (req : Request)
    (ht : rule.tools ≠ []) :
    (permissionsAny (compileRule rule).permissions req = true ↔
      (assocGet req.metadata (mcpProxyFilterName, ["method"]) =
          some toolsCallMethod ∧
        ∃ t ∈ rule.tools,
          assocGet req.metadata (mcpProxyFilterName, ["params", "name"]) =
            some t)) := by
  show (permissionsAny (compileRulePermissions rule) req = true ↔ _)
  unfold compileRulePermissions
  have hlen : rule.tools.length > 0 := List.length_pos.mpr ht
  rw [if_pos hlen]
  simp only [permissionsAny, permissionMatches, permissionsAll,
    Bool.or_false, Bool.and_true, metadataMatcherMatches]
  cases h1 : assocGet req.metadata (mcpProxyFilterName, ["method"]) with
  | none => simp
  | some v1 =>
    cases h2 : assocGet req.metadata (mcpProxyFilterName, ["params", "name"]) with
    | none =>
      simp [valueMatcherMatches, stringMatcherMatches]
    | some v2 =>
      simp only [toolsValueMatcher_matches rule.tools ht]
      simp only [valueMatcherMatches, stringMatcherMatches,
        Bool.and_eq_true, beq_iff_eq, Option.some.injEq, List.any_eq_true]
      tauto

/-- The session-close baked-in policy matches exactly the requests with
HTTP method `DELETE` and an `mcp-session-id` header. -/
theorem policyMatches_sessionClose (req : Request) :
    (policyMatches buildAllowMCPSessionClosePolicy req = true ↔
      (assocGet req.headers ":method" = some "DELETE" ∧
        (assocGet req.headers mcpSessionIDHeader).isSome = true)) := by
  unfold policyMatches buildAllowMCPSessionClosePolicy
  simp only [permissionsAny, permissionMatches, principalsAny,
    principalMatches, principalsAll, Bool.or_false, Bool.and_true,
    Bool.true_and]
  cases h1 : assocGet req.headers ":method" with
  | none => simp [headerMatcherMatches, h1]
  | some v =>
    cases h2 : assocGet req.headers mcpSessionIDHeader with
    | none =>
      simp [headerMatcherMatches, h1, h2, stringMatcherMatches, beq_iff_eq]
      try tauto
    | some w =>
      simp [headerMatcherMatches, h1, h2, stringMatcherMatches, beq_iff_eq]
      try tauto

/-- The initialize/list-tools baked-in policy matches any principal, and
exactly the requests whose `method` metadata is one of the three
handshake/introspection methods or whose HTTP method is `GET`. -/
theorem policyMatches_initList (req : Request) :
    (policyMatches buildAllowAnyoneToInitializeAndListToolsPolicy req = true ↔
      (assocGet req.metadata (mcpProxyFilterName, ["method"]) =
          some initializeMethod ∨
        assocGet req.metadata (mcpProxyFilterName, ["method"]) =
          some initializedMethod ∨
        assocGet req.metadata (mcpProxyFilterName, ["method"]) =
          some toolsListMethod ∨
        assocGet req.headers ":method" = some "GET")) := by
  unfold policyMatches buildAllowAnyoneToInitializeAndListToolsPolicy
  simp only [permissionsAny, permissionMatches, principalsAny,
    principalMatches, permissionsAll, Bool.or_false, Bool.and_true,
    Bool.and_self, Bool.and_true, metadataMatcherMatches,
    valueMatcherMatches, valueMatchersAny, stringMatcherMatches]
  cases h1 : assocGet req.metadata (mcpProxyFilterName, ["method"]) with
  | none =>
    cases h2 : assocGet req.headers ":method" with
    | none => simp [headerMatcherMatches, h2]
    | some v =>
      simp [headerMatcherMatches, h2, stringMatcherMatches, beq_iff_eq]
      try tauto
  | some v =>
    cases h2 : assocGet req.headers ":method" with
    | none =>
      simp [headerMatcherMatches, h2, beq_iff_eq, or_assoc]
      try tauto
    | some w =>
      simp [headerMatcherMatches, h2, stringMatcherMatches, beq_iff_eq,
        or_assoc]
      try tauto

/-! ## Lemmas: the resolved action and the baked-in policy entries -/

theorem rbacActionFromAuthPolicy_eq_allow (authPolicy : Option AuthPolicy) :
    rbacActionFromAuthPolicy authPolicy = RBACAction.allow := by
  unfold rbacActionFromAuthPolicy
  cases authPolicy with
  | none => rfl
  | some ap =>
    dsimp only
    split <;> rfl

theorem rbacConfig_action_allow (allAuthPolicies : List AuthPolicy)
    (backend : Backend) :
    (rbacConfigFromAuthPolicy allAuthPolicies backend).action =
      RBACAction.allow := by
  simp only [rbacConfigFromAuthPolicy, rbacActionFromAuthPolicy_eq_allow]

theorem rbacConfig_baked_sessionClose (allAuthPolicies : List AuthPolicy)
    (backend : Backend) :
    assocGet (rbacConfigFromAuthPolicy allAuthPolicies backend).policies
        allowMCPSessionClosePolicyName =
      some buildAllowMCPSessionClosePolicy := by
  simp only [rbacConfigFromAuthPolicy, rbacActionFromAuthPolicy_eq_allow,
    eq_self_iff_true, if_true]
  rw [assocGet_mapSet_ne _ _ _ _ (by decide)]
  exact assocGet_mapSet_self _ _ _

theorem rbacConfig_baked_initList (allAuthPolicies : List AuthPolicy)
    (backend : Backend) :
    assocGet (rbacConfigFromAuthPolicy allAuthPolicies backend).policies
        allowAnyoneToInitializeAndListToolsPolicyName =
      some buildAllowAnyoneToInitializeAndListToolsPolicy := by
  simp only [rbacConfigFromAuthPolicy, rbacActionFromAuthPolicy_eq_allow,
    eq_self_iff_true, if_true]
  exact assocGet_mapSet_self _ _ _

/-! ## Claim theorems -/

/-- C1: for every Backend with no AuthPolicy targeting it,
`rbacConfigFromAuthPolicy` resolves the RBAC action to ALLOW and the
returned policy map contains the two baked-in policies; and for every
AuthPolicy whose declared action is unrecognized or unset,
`rbacActionFromAuthPolicy` also resolves the action to ALLOW. -/
theorem claim1_fail_open_allow (backend : Backend)
    (allAuthPolicies : List AuthPolicy)
    (hnone : findAuthPolicyForBackend backend allAuthPolicies = none)
    (ap : AuthPolicy) (hact : ap.spec.action ≠ ActionAllow) :
    (rbacConfigFromAuthPolicy allAuthPolicies backend).action =
        RBACAction.allow ∧
      assocGet (rbacConfigFromAuthPolicy allAuthPolicies backend).policies
          allowMCPSessionClosePolicyName =
        some buildAllowMCPSessionClosePolicy ∧
      assocGet (rbacConfigFromAuthPolicy allAuthPolicies backend).policies
          allowAnyoneToInitializeAndListToolsPolicyName =
        some buildAllowAnyoneToInitializeAndListToolsPolicy ∧
      rbacActionFromAuthPolicy (some ap) = RBACAction.allow :=
  ⟨rbacConfig_action_allow allAuthPolicies backend,
   rbacConfig_baked_sessionClose allAuthPolicies backend,
   rbacConfig_baked_initList allAuthPolicies backend,
   rbacActionFromAuthPolicy_eq_allow (some ap)⟩

/-- Witness for C1: a backend with no AuthPolicy at all, and an AuthPolicy
declaring the unrecognized action `DENY`. -/
theorem claim1_fail_open_allow_witness :
    findAuthPolicyForBackend
        { nspace := "default", name := "mcp",
          mcp := { serviceName := "svc", hostname := "", port := 8080 } }
        [] = none ∧
      AuthPolicySpec.action
          { targetRef := { kind := "Backend", name := "mcp" },
            rules := [], action := "DENY" } ≠ ActionAllow ∧
      (rbacConfigFromAuthPolicy []
          { nspace := "default", name := "mcp",
            mcp := { serviceName := "svc", hostname := "", port := 8080 } }).action =
        RBACAction.allow ∧
      rbacActionFromAuthPolicy
          (some { nspace := "default", name := "p",
                  spec := { targetRef := { kind := "Backend", name := "mcp" },
                            rules := [], action := "DENY" } }) =
        RBACAction.allow := by
  refine ⟨rfl, by decide, ?_, ?_⟩
  · exact (claim1_fail_open_allow
      { nspace := "default", name := "mcp",
        mcp := { serviceName := "svc", hostname := "", port := 8080 } }
      [] rfl
      { nspace := "default", name := "p",
        spec := { targetRef := { kind := "Backend", name := "mcp" },
                  rules := [], action := "DENY" } }
      (by decide)).1
  · exact (claim1_fail_open_allow
      { nspace := "default", name := "mcp",
        mcp := { serviceName := "svc", hostname := "", port := 8080 } }
      [] rfl
      { nspace := "default", name := "p",
        spec := { targetRef := { kind := "Backend", name := "mcp" },
                  rules := [], action := "DENY" } }
      (by decide)).2.2.2

/-- C2: whenever the resolved action is ALLOW, the output map contains,
under the two fixed names, the two baked-in policies; the first matches
exactly the requests with HTTP method DELETE and a present
`mcp-session-id` header (its permission being an any-permission), and the
second matches any principal whose request carries method metadata equal
to one of `initialize`, `notifications/initialized`, `tools/list`, or has
HTTP method GET. -/
theorem claim2_baked_policies (allAuthPolicies : List AuthPolicy)
    (backend : Backend) (req : Request)
    (hallow : (rbacConfigFromAuthPolicy allAuthPolicies backend).action =
      RBACAction.allow) :
    assocGet (rbacConfigFromAuthPolicy allAuthPolicies backend).policies
        allowMCPSessionClosePolicyName =
      some buildAllowMCPSessionClosePolicy ∧
    assocGet (rbacConfigFromAuthPolicy allAuthPolicies backend).policies
        allowAnyoneToInitializeAndListToolsPolicyName =
      some buildAllowAnyoneToInitializeAndListToolsPolicy ∧
    buildAllowMCPSessionClosePolicy.permissions =
      [Permission.anyPermission true] ∧
    (policyMatches buildAllowMCPSessionClosePolicy req = true ↔
      (assocGet req.headers ":method" = some "DELETE" ∧
        (assocGet req.headers mcpSessionIDHeader).isSome = true)) ∧
    (policyMatches buildAllowAnyoneToInitializeAndListToolsPolicy req = true ↔
      (assocGet req.metadata (mcpProxyFilterName, ["method"]) =
          some initializeMethod ∨
        assocGet req.metadata (mcpProxyFilterName, ["method"]) =
          some initializedMethod ∨
        assocGet req.metadata (mcpProxyFilterName, ["method"]) =
          some toolsListMethod ∨
        assocGet req.headers ":method" = some "GET")) :=
  ⟨rbacConfig_baked_sessionClose allAuthPolicies backend,
   rbacConfig_baked_initList allAuthPolicies backend,
   rfl,
   policyMatches_sessionClose req,
   policyMatches_initList req⟩

/-- Witness for C2: a session-close request (DELETE with session header)
matches the first baked-in policy, and a plain GET matches the second. -/
theorem claim2_baked_policies_witness :
    (rbacConfigFromAuthPolicy []
        { nspace := "ns", name := "b",
          mcp := { serviceName := "svc", hostname := "", port := 80 } }).action =
      RBACAction.allow ∧
    policyMatches buildAllowMCPSessionClosePolicy
      { headers := [(":method", "DELETE"), ("mcp-session-id", "abc")],
        metadata := [] } = true ∧
    policyMatches buildAllowAnyoneToInitializeAndListToolsPolicy
      { headers := [(":method", "GET")], metadata := [] } = true := by
  refine ⟨rfl, ?_, ?_⟩
  · exact (claim2_baked_policies []
      { nspace := "ns", name := "b",
        mcp := { serviceName := "svc", hostname := "", port := 80 } }
      { headers := [(":method", "DELETE"), ("mcp-session-id", "abc")],
        metadata := [] }
      rfl).2.2.2.1.mpr ⟨rfl, rfl⟩
  · exact (claim2_baked_policies []
      { nspace := "ns", name := "b",
        mcp := { serviceName := "svc", hostname := "", port := 80 } }
      { headers := [(":method", "GET")], metadata := [] }
      rfl).2.2.2.2.mpr (by right; right; right; rfl)

/-- C3: for every AuthRule with a non-empty Tools list, the compiled
policy's single permission is an AND of (1) the request's method metadata
being exactly `tools/call` and (2) the `params.name` metadata exactly
matching one of the listed tool names (a single exact match for one tool,
an OR of exact matches for more). -/
theorem claim3_tools_permission (ap : AuthPolicy) (backend : Backend)
    (i : Nat) (rule : AuthRule) (req : Request)
    (hr : ap.spec.rules[i]? = some rule) (ht : rule.tools ≠ []) :
    assocGet (translateAuthPolicyToRBAC ap backend)
        (rbacPolicyName backend.nspace backend.name i) =
      some (compileRule rule) ∧
    (compileRule rule).permissions =
      [Permission.andRules
        [Permission.sourcedMetadata
          { filter := mcpProxyFilterName, path := ["method"],
            value := .stringMatch (.exact toolsCallMethod) },
         Permission.sourcedMetadata
          { filter := mcpProxyFilterName, path := ["params", "name"],
            value := toolsValueMatcher rule.tools }]] ∧
    (permissionsAny (compileRule rule).permissions req = true ↔
      (assocGet req.metadata (mcpProxyFilterName, ["method"]) =
          some toolsCallMethod ∧
        ∃ t ∈ rule.tools,
          assocGet req.metadata (mcpProxyFilterName, ["params", "name"]) =
            some t)) := by
  refine ⟨assocGet_translateAuthPolicyToRBAC ap backend i rule hr, ?_,
    permissionsAny_compileRule rule req ht⟩
  show compileRulePermissions rule = _
  unfold compileRulePermissions
  rw [if_pos (List.length_pos.mpr ht)]

/-- Witness for C3: a rule allowing tools `add` and `getTinyImage` matches
a `tools/call` request naming `add` and does not match one naming
`echo`. -/
theorem claim3_tools_permission_witness :
    (AuthPolicySpec.rules
        { targetRef := { kind := "Backend", name := "b" },
          rules := [{ source := { identities := ["u"], serviceAccounts := [] },
                      tools := ["add", "getTinyImage"] }],
          action := "ALLOW" })[0]? =
      some { source := { identities := ["u"], serviceAccounts := [] },
             tools := ["add", "getTinyImage"] } ∧
    (["add", "getTinyImage"] : List String) ≠ [] ∧
    permissionsAny
      (compileRule { source := { identities := ["u"], serviceAccounts := [] },
                     tools := ["add", "getTinyImage"] }).permissions
      { headers := [],
        metadata := [(("mcp_proxy", ["method"]), "tools/call"),
                     (("mcp_proxy", ["params", "name"]), "add")] } = true ∧
    permissionsAny
      (compileRule { source := { identities := ["u"], serviceAccounts := [] },
                     tools := ["add", "getTinyImage"] }).permissions
      { headers := [],
        metadata := [(("mcp_proxy", ["method"]), "tools/call"),
                     (("mcp_proxy", ["params", "name"]), "echo")] } = false := by
  refine ⟨rfl, by decide, ?_, rfl⟩
  exact (claim3_tools_permission
    { nspace := "default", name := "p",
      spec := { targetRef := { kind := "Backend", name := "b" },
                rules := [{ source := { identities := ["u"],
                                        serviceAccounts := [] },
                            tools := ["add", "getTinyImage"] }],
                action := "ALLOW" } }
    { nspace := "default", name := "b",
      mcp := { serviceName := "svc", hostname := "", port := 80 } }
    0
    { source := { identities := ["u"], serviceAccounts := [] },
      tools := ["add", "getTinyImage"] }
    { headers := [],
      metadata := [(("mcp_proxy", ["method"]), "tools/call"),
                   (("mcp_proxy", ["params", "name"]), "add")] }
    rfl (by decide)).2.2.mpr ⟨rfl, "add", by decide, rfl⟩

/-- C4: for every AuthRule at index `i` of an AuthPolicy compiled against a
backend, the policy map contains the key
`<namespace>-<name>-rule-<i>`; the compiled principal is one flattened
OR'd set of exact-match conditions over the concatenation of
`Source.Identities` and `Source.ServiceAccounts`, so a request matches
exactly when its identity equals one of the listed values. -/
theorem claim4_rule_name_and_principals (ap : AuthPolicy) (backend : Backend)
    (i : Nat) (rule : AuthRule) (req : Request)
    (hr : ap.spec.rules[i]? = some rule) :
    assocGet (translateAuthPolicyToRBAC ap backend)
        (rbacPolicyName backend.nspace backend.name i) =
      some (compileRule rule) ∧
    (rule.source.identities ++ rule.source.serviceAccounts ≠ [] →
      (compileRule rule).principals =
        [Principal.orIds
          ((rule.source.identities ++ rule.source.serviceAccounts).map
            (fun source =>
              Principal.header
                { name := "x-user-role",
                  specifier := .stringMatch (.exact source) }))]) ∧
    (principalsAny (compileRule rule).principals req = true ↔
      ∃ s ∈ rule.source.identities ++ rule.source.serviceAccounts,
        assocGet req.headers "x-user-role" = some s) := by
  refine ⟨assocGet_translateAuthPolicyToRBAC ap backend i rule hr, ?_,
    principalsAny_compileRule rule req⟩
  intro hne
  show compileRulePrincipals rule = _
  unfold compileRulePrincipals
  rw [if_pos (List.length_pos.mpr hne)]

/-- Witness for C4: a rule with one identity and one service account
matches a request carrying either value and rejects a third. -/
theorem claim4_rule_name_and_principals_witness :
    (AuthPolicySpec.rules
        { targetRef := { kind := "Backend", name := "b" },
          rules := [{ source := { identities := ["spiffe://td/ns/default/sa/a"],
                                  serviceAccounts := ["default/b"] },
                      tools := ["add"] }],
          action := "ALLOW" })[0]? =
      some { source := { identities := ["spiffe://td/ns/default/sa/a"],
                         serviceAccounts := ["default/b"] },
             tools := ["add"] } ∧
    principalsAny
      (compileRule { source := { identities := ["spiffe://td/ns/default/sa/a"],
                                 serviceAccounts := ["default/b"] },
                     tools := ["add"] }).principals
      { headers := [("x-user-role", "spiffe://td/ns/default/sa/a")],
        metadata := [] } = true ∧
    principalsAny
      (compileRule { source := { identities := ["spiffe://td/ns/default/sa/a"],
                                 serviceAccounts := ["default/b"] },
                     tools := ["add"] }).principals
      { headers := [("x-user-role", "default/b")], metadata := [] } = true ∧
    principalsAny
      (compileRule { source := { identities := ["spiffe://td/ns/default/sa/a"],
                                 serviceAccounts := ["default/b"] },
                     tools := ["add"] }).principals
      { headers := [("x-user-role", "spiffe://td/ns/other/sa/c")],
        metadata := [] } = false := by
  refine ⟨rfl, ?_, ?_, rfl⟩
  · exact (claim4_rule_name_and_principals
      { nspace := "default", name := "p",
        spec := { targetRef := { kind := "Backend", name := "b" },
                  rules := [{ source :=
                                { identities := ["spiffe://td/ns/default/sa/a"],
                                  serviceAccounts := ["default/b"] },
                              tools := ["add"] }],
                  action := "ALLOW" } }
      { nspace := "default", name := "b",
        mcp := { serviceName := "svc", hostname := "", port := 80 } }
      0
      { source := { identities := ["spiffe://td/ns/default/sa/a"],
                    serviceAccounts := ["default/b"] },
        tools := ["add"] }
      { headers := [("x-user-role", "spiffe://td/ns/default/sa/a")],
        metadata := [] }
      rfl).2.2.mpr ⟨"spiffe://td/ns/default/sa/a", by decide, rfl⟩
  · exact (claim4_rule_name_and_principals
      { nspace := "default", name := "p",
        spec := { targetRef := { kind := "Backend", name := "b" },
                  rules := [{ source :=
                                { identities := ["spiffe://td/ns/default/sa/a"],
                                  serviceAccounts := ["default/b"] },
                              tools := ["add"] }],
                  action := "ALLOW" } }
      { nspace := "default", name := "b",
        mcp := { serviceName := "svc", hostname := "", port := 80 } }
      0
      { source := { identities := ["spiffe://td/ns/default/sa/a"],
                    serviceAccounts := ["default/b"] },
        tools := ["add"] }
      { headers := [("x-user-role", "default/b")], metadata := [] }
      rfl).2.2.mpr ⟨"default/b", by decide, rfl⟩

/-- C5: for every AuthRule whose Tools list is empty, the compiled output
still contains a policy under the rule's deterministic name, with
principals compiled from Source but with an empty permission list, so it
matches no request (allow-nothing) while remaining present in the map. -/
theorem claim5_empty_tools_inert (ap : AuthPolicy) (backend : Backend)
    (i : Nat) (rule : AuthRule) (req : Request)
    (hr : ap.spec.rules[i]? = some rule) (ht : rule.tools = []) :
    assocGet (translateAuthPolicyToRBAC ap backend)
        (rbacPolicyName backend.nspace backend.name i) =
      some (compileRule rule) ∧
    (compileRule rule).principals = compileRulePrincipals rule ∧
    (compileRule rule).permissions = [] ∧
    policyMatches (compileRule rule) req = false := by
  have hperm : (compileRule rule).permissions = [] := by
    show compileRulePermissions rule = []
    unfold compileRulePermissions
    rw [ht]
    rfl
  refine ⟨assocGet_translateAuthPolicyToRBAC ap backend i rule hr, rfl, hperm, ?_⟩
  unfold policyMatches
  rw [hperm]
  rfl

/-- Witness for C5: the rule with an empty tool list still appears in the
map under its name and matches nothing, even a request from the listed
source naming a tool. -/
theorem claim5_empty_tools_inert_witness :
    assocGet
        (translateAuthPolicyToRBAC
          { nspace := "default", name := "p",
            spec := { targetRef := { kind := "Backend", name := "b" },
                      rules := [{ source := { identities := ["u"],
                                              serviceAccounts := [] },
                                  tools := [] }],
                      action := "ALLOW" } }
          { nspace := "default", name := "b",
            mcp := { serviceName := "svc", hostname := "", port := 80 } })
        "default-b-rule-0" =
      some (compileRule { source := { identities := ["u"],
                                      serviceAccounts := [] },
                          tools := [] }) ∧
    policyMatches
      (compileRule { source := { identities := ["u"], serviceAccounts := [] },
                     tools := [] })
      { headers := [("x-user-role", "u")],
        metadata := [(("mcp_proxy", ["method"]), "tools/call"),
                     (("mcp_proxy", ["params", "name"]), "add")] } = false := by
  have h := claim5_empty_tools_inert
    { nspace := "default", name := "p",
      spec := { targetRef := { kind := "Backend", name := "b" },
                rules := [{ source := { identities := ["u"],
                                        serviceAccounts := [] },
                            tools := [] }],
                action := "ALLOW" } }
    { nspace := "default", name := "b",
      mcp := { serviceName := "svc", hostname := "", port := 80 } }
    0
    { source := { identities := ["u"], serviceAccounts := [] }, tools := [] }
    { headers := [("x-user-role", "u")],
      metadata := [(("mcp_proxy", ["method"]), "tools/call"),
                   (("mcp_proxy", ["params", "name"]), "add")] }
    rfl rfl
  exact ⟨h.1, h.2.2.2⟩

/-- C10: for every AuthRule whose Source has both Identities and
ServiceAccounts empty, the compiled policy has an empty principals list:
the compiler emits no match-anything principal. -/
theorem claim10_empty_source_no_principal (ap : AuthPolicy)
    (backend : Backend) (i : Nat) (rule : AuthRule)
    (hr : ap.spec.rules[i]? = some rule)
    (hid : rule.source.identities = [])
    (hsa : rule.source.serviceAccounts = []) :
    assocGet (translateAuthPolicyToRBAC ap backend)
        (rbacPolicyName backend.nspace backend.name i) =
      some (compileRule rule) ∧
    (compileRule rule).principals = [] := by
  refine ⟨assocGet_translateAuthPolicyToRBAC ap backend i rule hr, ?_⟩
  show compileRulePrincipals rule = []
  unfold compileRulePrincipals
  rw [hid, hsa]
  rfl

/-- Witness for C10: a rule with an entirely empty Source compiles to a
policy with no principals. -/
theorem claim10_empty_source_no_principal_witness :
    assocGet
        (translateAuthPolicyToRBAC
          { nspace := "default", name := "p",
            spec := { targetRef := { kind := "Backend", name := "b" },
                      rules := [{ source := { identities := [],
                                              serviceAccounts := [] },
                                  tools := ["add"] }],
                      action := "ALLOW" } }
          { nspace := "default", name := "b",
            mcp := { serviceName := "svc", hostname := "", port := 80 } })
        "default-b-rule-0" =
      some (compileRule { source := { identities := [],
                                      serviceAccounts := [] },
                          tools := ["add"] }) ∧
    (compileRule { source := { identities := [], serviceAccounts := [] },
                   tools := ["add"] }).principals = [] :=
  claim10_empty_source_no_principal
    { nspace := "default", name := "p",
      spec := { targetRef := { kind := "Backend", name := "b" },
                rules := [{ source := { identities := [],
                                        serviceAccounts := [] },
                            tools := ["add"] }],
                action := "ALLOW" } }
    { nspace := "default", name := "b",
      mcp := { serviceName := "svc", hostname := "", port := 80 } }
    0
    { source := { identities := [], serviceAccounts := [] }, tools := ["add"] }
    rfl rfl rfl

/-- Shape of the server state after a successful `UpdateXDSServer` call:
the counter advanced by one and the snapshot carrying the stringified new
counter was committed under the node id. -/
theorem UpdateXDSServer_ok_state (mkErr : Resources → Option String)
    (setErr : List (String × Snapshot) → String → Snapshot → Option String)
    (s : XDSServer) (nodeid : String) (resources : Resources)
    (h : (UpdateXDSServer mkErr setErr s nodeid resources).1 = .ok ()) :
    (UpdateXDSServer mkErr setErr s nodeid resources).2 =
      { version := (s.version + 1) % uint64Mod,
        cache := mapSet s.cache nodeid
          { version := sprintfNat ((s.version + 1) % uint64Mod),
            resources := resources } } := by
  unfold UpdateXDSServer at h ⊢
  dsimp only at h ⊢
  split at h
  next e heq => exact Except.noConfusion h
  next heq =>
    split at h
    next e heq2 => exact Except.noConfusion h
    next heq2 => rfl

/-- C6: `convertBackendToCluster` names the cluster
`<namespace>-<name>`; with a service name set it produces a strict-DNS
cluster on the in-cluster FQDN with no transport socket, and with the
service name absent it produces a logical-DNS cluster on the hostname,
always carrying a TLS transport socket whose SNI is the hostname. -/
theorem claim6_convertBackendToCluster (backend : Backend) :
    (backend.mcp.serviceName ≠ "" →
      convertBackendToCluster backend =
        .ok { name := clusterNameOf backend.nspace backend.name,
              connectTimeoutSeconds := defaultConnectTimeoutSeconds,
              clusterDiscoveryType := .strictDNS,
              loadAssignment :=
                createClusterLoadAssignment
                  (clusterNameOf backend.nspace backend.name)
                  (backend.mcp.serviceName ++ "." ++ backend.nspace ++
                    ".svc.cluster.local")
                  backend.mcp.port,
              transportSocket := none }) ∧
    (backend.mcp.serviceName = "" →
      convertBackendToCluster backend =
        .ok { name := clusterNameOf backend.nspace backend.name,
              connectTimeoutSeconds := defaultConnectTimeoutSeconds,
              clusterDiscoveryType := .logicalDNS,
              loadAssignment :=
                createClusterLoadAssignment
                  (clusterNameOf backend.nspace backend.name)
                  backend.mcp.hostname backend.mcp.port,
              transportSocket :=
                some { name := "envoy.transport_sockets.tls",
                       sni := backend.mcp.hostname } }) := by
  constructor
  · intro h
    unfold convertBackendToCluster
    rw [if_pos h]
  · intro h
    unfold convertBackendToCluster
    rw [if_neg (by simpa using h)]

/-- Witness for C6: the in-cluster backend `ns/svc:8080` compiles to a
strict-DNS cluster on `svc.ns.svc.cluster.local` with no transport socket,
and an external backend on `api.example.com:443` compiles to a logical-DNS
cluster with SNI `api.example.com`. -/
theorem claim6_convertBackendToCluster_witness :
    ("svc" : String) ≠ "" ∧
    convertBackendToCluster
        { nspace := "ns", name := "svc",
          mcp := { serviceName := "svc", hostname := "", port := 8080 } } =
      .ok { name := clusterNameOf "ns" "svc",
            connectTimeoutSeconds := defaultConnectTimeoutSeconds,
            clusterDiscoveryType := .strictDNS,
            loadAssignment :=
              createClusterLoadAssignment (clusterNameOf "ns" "svc")
                "svc.ns.svc.cluster.local" 8080,
            transportSocket := none } ∧
    convertBackendToCluster
        { nspace := "ns", name := "ext",
          mcp := { serviceName := "", hostname := "api.example.com",
                   port := 443 } } =
      .ok { name := clusterNameOf "ns" "ext",
            connectTimeoutSeconds := defaultConnectTimeoutSeconds,
            clusterDiscoveryType := .logicalDNS,
            loadAssignment :=
              createClusterLoadAssignment (clusterNameOf "ns" "ext")
                "api.example.com" 443,
            transportSocket :=
              some { name := "envoy.transport_sockets.tls",
                     sni := "api.example.com" } } :=
  ⟨by decide,
   (claim6_convertBackendToCluster
      { nspace := "ns", name := "svc",
        mcp := { serviceName := "svc", hostname := "", port := 8080 } }).1
     (by decide),
   (claim6_convertBackendToCluster
      { nspace := "ns", name := "ext",
        mcp := { serviceName := "", hostname := "api.example.com",
                 port := 443 } }).2 rfl⟩

/-- C7 (amended for the 64-bit wrap): every snapshot publish advances the
single process-wide atomic counter by one modulo `2^64` (the counter is a
`uint64`) and stringifies the result as the snapshot's version token; two
successive successful publishes yield strictly increasing version tokens
provided the counter does not wrap between them, and two successive
publishes — in particular publishes for two different instances — never
yield a duplicate version token. -/
theorem claim7_version_tokens (mkErr : Resources → Option String)
    (setErr : List (String × Snapshot) → String → Snapshot → Option String)
    (s : XDSServer) (n1 n2 : String) (r1 r2 : Resources)
    (h1 : (UpdateXDSServer mkErr setErr s n1 r1).1 = .ok ())
    (h2 : (UpdateXDSServer mkErr setErr
        (UpdateXDSServer mkErr setErr s n1 r1).2 n2 r2).1 = .ok ()) :
    (UpdateXDSServer mkErr setErr s n1 r1).2.version =
      (s.version + 1) % uint64Mod ∧
    (UpdateXDSServer mkErr setErr
        (UpdateXDSServer mkErr setErr s n1 r1).2 n2 r2).2.version =
      ((s.version + 1) % uint64Mod + 1) % uint64Mod ∧
    assocGet (UpdateXDSServer mkErr setErr s n1 r1).2.cache n1 =
      some { version := sprintfNat ((s.version + 1) % uint64Mod),
             resources := r1 } ∧
    assocGet (UpdateXDSServer mkErr setErr
        (UpdateXDSServer mkErr setErr s n1 r1).2 n2 r2).2.cache n2 =
      some { version := sprintfNat (((s.version + 1) % uint64Mod + 1) %
               uint64Mod),
             resources := r2 } ∧
    (s.version + 2 < uint64Mod →
      (s.version + 1) % uint64Mod <
        ((s.version + 1) % uint64Mod + 1) % uint64Mod) ∧
    sprintfNat ((s.version + 1) % uint64Mod) ≠
      sprintfNat (((s.version + 1) % uint64Mod + 1) % uint64Mod) ∧
    (n1 ≠ n2 →
      assocGet (UpdateXDSServer mkErr setErr
          (UpdateXDSServer mkErr setErr s n1 r1).2 n2 r2).2.cache n1 =
        some { version := sprintfNat ((s.version + 1) % uint64Mod),
               resources := r1 }) := by
  have e1 := UpdateXDSServer_ok_state mkErr setErr s n1 r1 h1
  have e2 := UpdateXDSServer_ok_state mkErr setErr
    (UpdateXDSServer mkErr setErr s n1 r1).2 n2 r2 h2
  rw [e1] at e2
  refine ⟨by rw [e1], ?_, ?_, ?_, ?_, ?_, ?_⟩
  · rw [e1, e2]
  · rw [e1]
    exact assocGet_mapSet_self _ _ _
  · rw [e1, e2]
    exact assocGet_mapSet_self _ _ _
  · intro hw
    rw [Nat.mod_eq_of_lt (show s.version + 1 < uint64Mod by omega)]
    rw [Nat.mod_eq_of_lt (show s.version + 1 + 1 < uint64Mod by omega)]
    omega
  · intro heq
    have h := sprintfNat_injective heq
    have hM : 1 < uint64Mod := by norm_num [uint64Mod]
    have ha : (s.version + 1) % uint64Mod < uint64Mod :=
      Nat.mod_lt _ (by omega)
    by_cases hlt : (s.version + 1) % uint64Mod + 1 < uint64Mod
    · rw [Nat.mod_eq_of_lt hlt] at h
      omega
    · have hEq : (s.version + 1) % uint64Mod + 1 = uint64Mod := by omega
      rw [hEq, Nat.mod_self] at h
      omega
  · intro hne
    rw [e1, e2]
    rw [assocGet_mapSet_ne _ _ _ _ (Ne.symm hne)]
    exact assocGet_mapSet_self _ _ _

/-- Witness for C7: two successful publishes for instances `a` and `b`
from a fresh server (counter 0, far below the wrap) yield the strictly
increasing, distinct tokens of counter values 1 and 2. -/
theorem claim7_version_tokens_witness :
    (UpdateXDSServer (fun _ => none) (fun _ _ _ => none)
        { version := 0, cache := [] } "a" [("c", ["x"])]).1 = .ok () ∧
    (UpdateXDSServer (fun _ => none) (fun _ _ _ => none)
        (UpdateXDSServer (fun _ => none) (fun _ _ _ => none)
          { version := 0, cache := [] } "a" [("c", ["x"])]).2 "b" []).1 =
      .ok () ∧
    (0 : Nat) + 2 < uint64Mod ∧
    (0 + 1) % uint64Mod < ((0 + 1) % uint64Mod + 1) % uint64Mod ∧
    sprintfNat ((0 + 1) % uint64Mod) ≠
      sprintfNat (((0 + 1) % uint64Mod + 1) % uint64Mod) ∧
    assocGet (UpdateXDSServer (fun _ => none) (fun _ _ _ => none)
        (UpdateXDSServer (fun _ => none) (fun _ _ _ => none)
          { version := 0, cache := [] } "a" [("c", ["x"])]).2 "b" []).2.cache
      "b" =
      some { version := sprintfNat (((0 + 1) % uint64Mod + 1) % uint64Mod),
             resources := [] } := by
  refine ⟨rfl, rfl, by norm_num [uint64Mod], ?_, ?_, ?_⟩
  · exact (claim7_version_tokens (fun _ => none) (fun _ _ _ => none)
      { version := 0, cache := [] } "a" "b" [("c", ["x"])] [] rfl
      rfl).2.2.2.2.1 (by norm_num [uint64Mod])
  · exact (claim7_version_tokens (fun _ => none) (fun _ _ _ => none)
      { version := 0, cache := [] } "a" "b" [("c", ["x"])] [] rfl
      rfl).2.2.2.2.2.1
  · exact (claim7_version_tokens (fun _ => none) (fun _ _ _ => none)
      { version := 0, cache := [] } "a" "b" [("c", ["x"])] [] rfl
      rfl).2.2.2.1

/-- C7 refutation of the original claim at the 64-bit wrap: from counter
value `2^64 - 2`, two successive successful publishes for the same
instance commit the tokens of counter values `2^64 - 1` and then `0` —
the counter and the committed token numerically decrease, so the two
publishes do not yield strictly increasing version tokens. -/
theorem claim7_version_tokens_counterexample :
    (UpdateXDSServer (fun _ => none) (fun _ _ _ => none)
        { version := 2 ^ 64 - 2, cache := [] } "a" []).1 = .ok () ∧
    (UpdateXDSServer (fun _ => none) (fun _ _ _ => none)
        (UpdateXDSServer (fun _ => none) (fun _ _ _ => none)
          { version := 2 ^ 64 - 2, cache := [] } "a" []).2 "a" []).1 =
      .ok () ∧
    (UpdateXDSServer (fun _ => none) (fun _ _ _ => none)
        { version := 2 ^ 64 - 2, cache := [] } "a" []).2.version =
      2 ^ 64 - 1 ∧
    (UpdateXDSServer (fun _ => none) (fun _ _ _ => none)
        (UpdateXDSServer (fun _ => none) (fun _ _ _ => none)
          { version := 2 ^ 64 - 2, cache := [] } "a" []).2 "a" []).2.version =
      0 ∧
    assocGet (UpdateXDSServer (fun _ => none) (fun _ _ _ => none)
        { version := 2 ^ 64 - 2, cache := [] } "a" []).2.cache "a" =
      some { version := sprintfNat (2 ^ 64 - 1), resources := [] } ∧
    assocGet (UpdateXDSServer (fun _ => none) (fun _ _ _ => none)
        (UpdateXDSServer (fun _ => none) (fun _ _ _ => none)
          { version := 2 ^ 64 - 2, cache := [] } "a" []).2 "a" []).2.cache
      "a" =
      some { version := sprintfNat 0, resources := [] } ∧
    sprintfNat 0 = "0" ∧
    ¬ ((2 ^ 64 - 1 : Nat) < 0) := by
  have h1 : (UpdateXDSServer (fun _ => none) (fun _ _ _ => none)
      { version := 2 ^ 64 - 2, cache := [] } "a" []).1 = .ok () := rfl
  have h2 : (UpdateXDSServer (fun _ => none) (fun _ _ _ => none)
      (UpdateXDSServer (fun _ => none) (fun _ _ _ => none)
        { version := 2 ^ 64 - 2, cache := [] } "a" []).2 "a" []).1 =
      .ok () := rfl
  have e1 := UpdateXDSServer_ok_state (fun _ => none) (fun _ _ _ => none)
    { version := 2 ^ 64 - 2, cache := [] } "a" [] h1
  dsimp only at e1
  rw [show ((2 : Nat) ^ 64 - 2 + 1) % uint64Mod = 2 ^ 64 - 1 by decide] at e1
  have e2 := UpdateXDSServer_ok_state (fun _ => none) (fun _ _ _ => none)
    (UpdateXDSServer (fun _ => none) (fun _ _ _ => none)
      { version := 2 ^ 64 - 2, cache := [] } "a" []).2 "a" [] h2
  rw [e1] at e2
  dsimp only at e2
  rw [show ((2 : Nat) ^ 64 - 1 + 1) % uint64Mod = 0 by decide] at e2
  refine ⟨h1, h2, ?_, ?_, ?_, ?_, rfl, Nat.not_lt_zero _⟩
  · rw [e1]
  · rw [e1, e2]
  · rw [e1]
    exact assocGet_mapSet_self _ _ _
  · rw [e1, e2]
    exact assocGet_mapSet_self _ _ _

/-- C8: when snapshot creation fails inside `UpdateXDSServer`, an error is
returned to the caller and the snapshot cache is unchanged, so the
previously committed snapshot for every node id remains the one served. -/
theorem claim8_creation_failure_keeps_cache (mkErr : Resources → Option String)
    (setErr : List (String × Snapshot) → String → Snapshot → Option String)
    (s : XDSServer) (nodeid : String) (resources : Resources) (e : String)
    (he : mkErr resources = some e) :
    (UpdateXDSServer mkErr setErr s nodeid resources).1 =
      .error ("failed to create new snapshot cache: " ++ e) ∧
    (UpdateXDSServer mkErr setErr s nodeid resources).2.cache = s.cache := by
  unfold UpdateXDSServer
  rw [he]
  exact ⟨rfl, rfl⟩

/-- Witness for C8: a rejected resource set leaves the previously
committed snapshot in place. -/
theorem claim8_creation_failure_keeps_cache_witness :
    (fun _ : Resources => some "bad") [("c", ["x"])] = some "bad" ∧
    (UpdateXDSServer (fun _ => some "bad") (fun _ _ _ => none)
        { version := 7,
          cache := [("a", { version := "7", resources := [] })] }
        "a" [("c", ["x"])]).1 =
      .error ("failed to create new snapshot cache: " ++ "bad") ∧
    (UpdateXDSServer (fun _ => some "bad") (fun _ _ _ => none)
        { version := 7,
          cache := [("a", { version := "7", resources := [] })] }
        "a" [("c", ["x"])]).2.cache =
      [("a", { version := "7", resources := [] })] := by
  refine ⟨rfl, ?_, ?_⟩
  · exact (claim8_creation_failure_keeps_cache (fun _ => some "bad")
      (fun _ _ _ => none)
      { version := 7, cache := [("a", { version := "7", resources := [] })] }
      "a" [("c", ["x"])] "bad" rfl).1
  · exact (claim8_creation_failure_keeps_cache (fun _ => some "bad")
      (fun _ _ _ => none)
      { version := 7, cache := [("a", { version := "7", resources := [] })] }
      "a" [("c", ["x"])] "bad" rfl).2

/-- C9: every call to `UpdateXDSServer` advances the global version
counter by exactly one step (modulo `2^64`, the width of the atomic
counter) before the snapshot is validated or committed, so a failing call
still consumes a version number and committed version tokens may skip
integers. -/
theorem claim9_every_call_consumes_version (mkErr : Resources → Option String)
    (setErr : List (String × Snapshot) → String → Snapshot → Option String)
    (s : XDSServer) (nodeid : String) (resources : Resources) :
    (UpdateXDSServer mkErr setErr s nodeid resources).2.version =
      (s.version + 1) % uint64Mod := by
  unfold UpdateXDSServer
  dsimp only
  cases hmk : mkErr resources with
  | some e => rfl
  | none =>
    cases hset : setErr s.cache nodeid
        { version := sprintfNat ((s.version + 1) % uint64Mod),
          resources := resources } with
    | some e => rfl
    | none => rfl

end AgenticNet
